import Mathlib

/-!
Verification of the mood-history analytics of `mood_tracker_app.py`.

The file gives a shallow embedding of the analytics and content-selection
logic of the application: streak calculation (`calculate_streak`), insight
extraction (`get_insights`), the static content selector
(`get_emotion_content`), the day-of-year fact selector
(`get_period_fact_of_day`), the classification adapter (`analyze_emotion`),
the cycle-day aggregation (`period_agg`), the entry-submission persistence
flow, and the CSV export of the history table.

Modelling conventions:
* a timestamp is a calendar-day index (an integer) plus hour/minute/second;
* model scores are rationals;
* a pandas DataFrame of history rows is a `List Entry` in row order;
* Python string lowercasing and comparison are modelled character-wise
  (`pyLower`, `strLe`), matching Python code-point semantics.
-/

/-! ## Basic data model -/

/-- A timestamp.  `day` is a calendar-day index: it increases by one per
calendar day, so the difference of two `day` values is the gap in days
(the role of `(dates[i] - dates[i + 1]).days` in the source). -/
structure DateTime where
  day : Int
  hour : Nat
  minute : Nat
  second : Nat
  deriving DecidableEq

/-- One row of the loaded history DataFrame, with the column layout produced
by `load_user_history` (the seven per-emotion score columns included).
`periodDay` is an `Option` because the `period_day` column is nullable in the
schema; the entry form always supplies a value in 1..7. -/
structure Entry where
  date : DateTime
  periodDay : Option Int
  summary : String
  emotionLabel : String
  confidenceScore : ℚ
  joyScore : ℚ
  sadnessScore : ℚ
  angerScore : ℚ
  fearScore : ℚ
  surpriseScore : ℚ
  disgustScore : ℚ
  neutralScore : ℚ
  deriving DecidableEq

/-- Helper to build a concrete history row (summary text and the seven
per-emotion scores are irrelevant to the statements that use it). -/
def mkEntry (day : Int) (pd : Option Int) (lab : String) (conf : ℚ) : Entry :=
  { date := ⟨day, 0, 0, 0⟩, periodDay := pd, summary := "", emotionLabel := lab,
    confidenceScore := conf, joyScore := 0, sadnessScore := 0, angerScore := 0,
    fearScore := 0, surpriseScore := 0, disgustScore := 0, neutralScore := 0 }

/-! ## Python string primitives -/

/-- Python `str.lower()`, character-wise (the emotion labels are ASCII). -/
def pyLower (s : String) : String := ⟨s.data.map Char.toLower⟩

/-- Code-point lexicographic comparison of character lists: the order Python
uses to compare strings and pandas uses to sort object values. -/
def lexLe : List Char → List Char → Bool
  | [], _ => true
  | _ :: _, [] => false
  | a :: as, b :: bs =>
    if a.toNat < b.toNat then true
    else if b.toNat < a.toNat then false
    else lexLe as bs

/-- Python string comparison `a <= b`. -/
def strLe (a b : String) : Bool := lexLe a.data b.data

/-! ## Streak calculator (`calculate_streak`) -/

/-- Calendar date of a timestamp: `pd.to_datetime(df["Date"]).dt.date`
discards the time of day. -/
def calDate (t : DateTime) : Int := t.day

/-- `dates = sorted(df["Date"].dt.date.unique(), reverse=True)`: the distinct
entry dates, most recent first. -/
def distinctDatesDesc (history : List DateTime) : List Int :=
  ((history.map calDate).dedup).insertionSort (· ≥ ·)

/-- The counting loop of `calculate_streak`: walk the descending date list
and count the gaps that are exactly one day, stopping at the first other
gap. -/
def consecutiveRun : List Int → Nat
  | d1 :: d2 :: rest => if d1 - d2 = 1 then consecutiveRun (d2 :: rest) + 1 else 0
  | _ => 0

/-- `calculate_streak(df)` with the current date injected: 0 on an empty
history, 0 when the most recent distinct date is neither today nor
yesterday, else 1 plus the number of consecutive one-day gaps from the most
recent date. -/
def calculate_streak (history : List DateTime) (today : Int) : Nat :=
  if history.isEmpty then 0
  else
    match distinctDatesDesc history with
    | [] => 0
    | d :: rest =>
      if d = today ∨ d = today - 1 then 1 + consecutiveRun (d :: rest) else 0

/-- Specification of a maximal leading run of one-day gaps: `k` is positive,
within bounds, every gap strictly inside the first `k` dates is exactly one
day, and the run stops at the first other gap. -/
def runSpec (l : List Int) (k : Nat) : Prop :=
  1 ≤ k ∧ k ≤ l.length ∧
  (∀ i, i + 1 < k → l.getD i 0 - l.getD (i + 1) 0 = 1) ∧
  (k < l.length → l.getD (k - 1) 0 - l.getD k 0 ≠ 1)

/-! ## Content selector (`get_emotion_content`) -/

/-- The per-emotion part of a `get_emotion_content` result. -/
structure EmotionBase where
  quote : String
  tip : String
  color : String
  emoji : String
  deriving DecidableEq

/-- A full `get_emotion_content` result. -/
structure EmotionContent where
  quote : String
  tip : String
  color : String
  emoji : String
  cycle_advice : String
  deriving DecidableEq

/-- The `emotion_data["neutral"]` entry, also the fallback for unknown
labels. -/
def neutralBase : EmotionBase :=
  { quote := "Sometimes the most productive thing you can do is rest.",
    tip := "Neutral days are perfectly normal. Use this calm to check in with yourself.",
    color := "#9E9E9E", emoji := "🌸" }

/-- The fixed `emotion_data` table of `get_emotion_content`. -/
def emotion_data : List (String × EmotionBase) :=
  [("joy",
    { quote := "Your joy is your sorrow unmasked. - Kahlil Gibran",
      tip := "Celebrate this feeling! Consider journaling about what brought you joy today.",
      color := "#FFD700", emoji := "😊" }),
   ("sadness",
    { quote := "It\x27s okay to not be okay. Be gentle with yourself today.",
      tip := "Try gentle movement like stretching or a short walk. Reach out to someone you trust.",
      color := "#4169E1", emoji := "💙" }),
   ("anger",
    { quote := "Your feelings are valid. Take time to understand what you need.",
      tip := "Try deep breathing exercises. Count to 10 before reacting. Physical activity can help release tension.",
      color := "#FF6B35", emoji := "🔥" }),
   ("fear",
    { quote := "Courage is not the absence of fear, but the triumph over it.",
      tip := "Ground yourself with the 5-4-3-2-1 technique. Name 5 things you can see, 4 you can touch, 3 you can hear, 2 you can smell, 1 you can taste.",
      color := "#7B68EE", emoji := "💜" }),
   ("surprise",
    { quote := "Life is full of surprises. Embrace the unexpected with curiosity.",
      tip := "Take a moment to reflect on what surprised you and what you can learn from it.",
      color := "#FF8C00", emoji := "✨" }),
   ("disgust",
    { quote := "Listen to your boundaries. They\x27re protecting you.",
      tip := "It\x27s okay to step away from what doesn\x27t feel right. Honor your feelings and set healthy boundaries.",
      color := "#32CD32", emoji := "🌿" }),
   ("neutral", neutralBase)]

/-- The fixed `cycle_tips` table of `get_emotion_content` (days 1..7). -/
def cycle_tips : List (Int × String) :=
  [(1, "Day 1 can be challenging. Rest is productive. Stay hydrated and be extra kind to yourself."),
   (2, "Your body is working hard. Gentle movement and warm compresses can help with discomfort."),
   (3, "You\x27re past the hardest part. Notice if your energy is starting to shift."),
   (4, "Energy may be returning. Listen to your body\x27s signals."),
   (5, "Notice how you\x27re feeling. Many people start feeling lighter around now."),
   (6, "You might notice increased energy. It\x27s a great time for activities you enjoy."),
   (7, "The final stretch. Reflect on your cycle and what you\x27ve learned about yourself.")]

/-- The fallback advice for cycle days outside the table. -/
def genericCycleAdvice : String :=
  "Remember to listen to your body and honor your needs."

/-- `get_emotion_content(emotion, cycle_day)`: look the lowercased label up
in `emotion_data` falling back to the neutral entry, and the cycle day up in
`cycle_tips` falling back to the generic advice. -/
def get_emotion_content (emotion : String) (cycle_day : Int) : EmotionContent :=
  let base := (emotion_data.lookup (pyLower emotion)).getD neutralBase
  { quote := base.quote, tip := base.tip, color := base.color, emoji := base.emoji,
    cycle_advice := (cycle_tips.lookup cycle_day).getD genericCycleAdvice }

/-! ## Fact of the day (`get_period_fact_of_day`) -/

/-- One entry of the fixed fact list. -/
structure PeriodFact where
  fact : String
  icon : String
  tip : String
  deriving DecidableEq

/-- The fixed ordered fact list of `get_period_fact_of_day` (31 entries). -/
def facts : List PeriodFact :=
  [{ fact := "The average menstrual cycle lasts 28 days, but anywhere from 21 to 35 days is considered normal.",
     icon := "📅",
     tip := "Track your cycle to understand your unique pattern!" },
   { fact := "Period blood isn\x27t actually just blood - it\x27s a mix of blood, tissue from the uterine lining, and vaginal secretions.",
     icon := "🔬",
     tip := "Changes in color and consistency are usually normal." },
   { fact := "You lose about 2-3 tablespoons of blood during your entire period, though it can feel like much more!",
     icon := "💧",
     tip := "Heavy bleeding (more than 80ml) should be discussed with a doctor." },
   { fact := "Period cramps happen because your uterus contracts to shed its lining. Prostaglandins are the chemicals responsible.",
     icon := "💪",
     tip := "Heat, exercise, and anti-inflammatory medications can help!" },
   { fact := "Your metabolism can increase slightly during your period, which is why you might feel hungrier!",
     icon := "🍽️",
     tip := "Listen to your body and nourish it with what it needs." },
   { fact := "PMS symptoms can start up to 2 weeks before your period and affect up to 90% of menstruating people.",
     icon := "🧠",
     tip := "Tracking your symptoms can help you prepare and cope better." },
   { fact := "Exercise during your period can actually help reduce cramps and improve your mood through endorphin release.",
     icon := "🏃‍♀️",
     tip := "Even gentle movement like walking or stretching counts!" },
   { fact := "The first day of your period is considered Day 1 of your menstrual cycle.",
     icon := "🌟",
     tip := "This is when hormones are at their lowest before starting to rise again." },
   { fact := "Chocolate cravings during your period are real! Your body needs more magnesium, and chocolate is rich in it.",
     icon := "🍫",
     tip := "Dark chocolate is a great source of magnesium and iron." },
   { fact := "Your sense of smell can be heightened during certain phases of your menstrual cycle.",
     icon := "👃",
     tip := "This is linked to hormonal changes throughout your cycle." },
   { fact := "Period pain that interferes with daily activities could be a sign of endometriosis or other conditions.",
     icon := "⚠️",
     tip := "Don\x27t ignore severe pain - consult a healthcare provider." },
   { fact := "Your period can affect your sleep quality due to hormonal fluctuations, especially progesterone levels.",
     icon := "😴",
     tip := "Prioritize rest and maintain good sleep hygiene during your cycle." },
   { fact := "The menstrual cycle is divided into 4 phases: menstruation, follicular, ovulation, and luteal.",
     icon := "🔄",
     tip := "Each phase has unique hormonal patterns and potential mood effects." },
   { fact := "Stress can affect your menstrual cycle, potentially causing it to be late, early, or skipped entirely.",
     icon := "🧘‍♀️",
     tip := "Stress management techniques can help regulate your cycle." },
   { fact := "Period products have evolved significantly - from pads and tampons to menstrual cups and period underwear!",
     icon := "🌸",
     tip := "Find what works best for your body and lifestyle." },
   { fact := "Your energy levels naturally fluctuate throughout your cycle - it\x27s not just in your head!",
     icon := "⚡",
     tip := "Plan important tasks during your high-energy phases when possible." },
   { fact := "The color of your period blood can tell you things about your health - bright red is fresh, dark is older blood.",
     icon := "🎨",
     tip := "Very pale or gray discharge should be checked by a doctor." },
   { fact := "You can still get pregnant during your period, though it\x27s less likely. Ovulation timing varies!",
     icon := "💡",
     tip := "Use contraception consistently if pregnancy prevention is important." },
   { fact := "Orgasms can help relieve menstrual cramps by releasing endorphins and relaxing the uterine muscles.",
     icon := "💕",
     tip := "Self-care comes in many forms - do what feels right for you!" },
   { fact := "The average person will menstruate for about 7 years of their lifetime!",
     icon := "⏰",
     tip := "That\x27s why understanding and tracking your cycle is so valuable." },
   { fact := "Hydration is extra important during your period - it can help reduce bloating and headaches.",
     icon := "💦",
     tip := "Aim for at least 8 glasses of water throughout the day." },
   { fact := "Iron levels can drop during menstruation due to blood loss, which may cause fatigue.",
     icon := "🥬",
     tip := "Eat iron-rich foods like leafy greens, beans, and lean meats." },
   { fact := "Period apps and trackers can help predict your next period and identify patterns in your cycle.",
     icon := "📱",
     tip := "You\x27re already doing this - great job taking charge of your health!" },
   { fact := "Hormonal birth control works by preventing ovulation, which is why some people don\x27t get periods on it.",
     icon := "💊",
     tip := "Talk to your doctor about what\x27s right for your body." },
   { fact := "Mood changes during your cycle are linked to fluctuating levels of estrogen and progesterone.",
     icon := "🎭",
     tip := "Tracking your moods can help you understand and prepare for these changes." },
   { fact := "Ancient cultures celebrated menstruation as a sign of fertility and feminine power.",
     icon := "🏛️",
     tip := "Your body is capable of amazing things!" },
   { fact := "The word \x27menstruation\x27 comes from Latin \x27mensis\x27 meaning \x27month\x27 - linked to lunar cycles.",
     icon := "🌙",
     tip := "Many cultures have connected menstrual cycles to moon phases." },
   { fact := "Everyone\x27s period is different - what\x27s normal for you might not be normal for someone else.",
     icon := "✨",
     tip := "Trust your body and speak up if something feels wrong." },
   { fact := "Fiber-rich foods can help with period symptoms by regulating hormones and reducing bloating.",
     icon := "🥦",
     tip := "Include whole grains, fruits, and vegetables in your diet." },
   { fact := "Your pain tolerance can actually decrease during menstruation due to hormonal changes.",
     icon := "🌡️",
     tip := "Be extra gentle with yourself during this time." },
   { fact := "Regular exercise can help regulate your menstrual cycle and reduce PMS symptoms.",
     icon := "🤸‍♀️",
     tip := "Find activities you enjoy to make it sustainable long-term." }]

/-- `get_period_fact_of_day()` with the day of year injected
(`date.today().timetuple().tm_yday`): index `day_of_year % len(facts)` into
the fixed list. -/
def get_period_fact_of_day (day_of_year : Nat) : PeriodFact :=
  facts.getD (day_of_year % facts.length) ⟨"", "", ""⟩

/-! ## Classification adapter (`analyze_emotion`) -/

/-- One `{label, score}` pair of a classifier result. -/
structure LabelScore where
  label : String
  score : ℚ
  deriving DecidableEq

/-- Python `max(l, key=key)` starting from `x`: a left fold that replaces the
current maximum only on a strictly greater key, so the first maximal element
wins. -/
def pyMaxBy {α : Type} (key : α → ℚ) (x : α) (l : List α) : α :=
  l.foldl (fun best r => if key best < key r then r else best) x

/-- `analyze_emotion(text, ...)` with the classifier output injected:
`max(results, key=lambda x: x["score"])` and pass-through of `results`.
Python `max` raises on an empty sequence; the model returns `none` there. -/
def analyze_emotion (results : List LabelScore) : Option (String × ℚ × List LabelScore) :=
  match results with
  | [] => none
  | x :: rest =>
    let top := pyMaxBy (fun r => r.score) x rest
    some (top.label, top.score, results)

/-! ## Insight extractor (`get_insights`) -/

/-- Sort a list of strings in Python code-point order (what pandas does to
object values). -/
def sortStrings (l : List String) : List String :=
  l.insertionSort fun a b => strLe a b = true

/-- The highest occurrence count among the values of `l`. -/
def maxCount (l : List String) : Nat :=
  ((l.dedup).map fun v => l.count v).foldr max 0

/-- pandas `Series.mode()`: the distinct values of maximal occurrence count,
returned in sorted order. -/
def seriesMode (l : List String) : List String :=
  (sortStrings l.dedup).filter fun v => l.count v = maxCount l

/-- The distinct cycle days occurring in the history, ascending: the group
keys of `df.groupby("Period Day")` (pandas drops null keys and sorts). -/
def dayKeys (df : List Entry) : List Int :=
  ((df.filterMap fun e => e.periodDay).dedup).insertionSort (· ≤ ·)

/-- The rows of the history whose cycle day is `d`. -/
def groupDay (df : List Entry) (d : Int) : List Entry :=
  df.filter fun e => e.periodDay = some d

/-- Arithmetic mean of a list of rationals. -/
def listMean (l : List ℚ) : ℚ := l.sum / l.length

/-- `df.groupby("Period Day")["Confidence Score"].mean()` at key `d`. -/
def dayMean (df : List Entry) (d : Int) : ℚ :=
  listMean ((groupDay df d).map fun e => e.confidenceScore)

/-- `int(day_avg.idxmax()) if not day_avg.empty else None`: the first group
key of maximal mean confidence (pandas `idxmax` keeps the first maximum),
`none` when no row carries a cycle day. -/
def best_day (df : List Entry) : Option Int :=
  match dayKeys df with
  | [] => none
  | d :: rest => some (pyMaxBy (dayMean df) d rest)

/-- The `insights` dictionary built by `get_insights`. -/
structure Insights where
  most_common_emotion : Option String
  best_day : Option Int
  total_entries : Nat
  deriving DecidableEq

/-- `get_insights(df)`: `None` on fewer than 3 rows, otherwise the mode of
the emotion labels (`mode()[0]`), the best cycle day, and the row count. -/
def get_insights (df : List Entry) : Option Insights :=
  if df.isEmpty ∨ df.length < 3 then none
  else some
    { most_common_emotion := (seriesMode (df.map fun e => e.emotionLabel)).head?,
      best_day := best_day df,
      total_entries := df.length }

/-! ## Cycle-day aggregation (`melt` + `groupby` mean) -/

/-- The seven per-emotion score columns (`emotion_cols` in the source). -/
def emotion_cols : List String :=
  ["Joy_Score", "Sadness_Score", "Anger_Score", "Fear_Score",
   "Surprise_Score", "Disgust_Score", "Neutral_Score"]

/-- Value of a named per-emotion score column of a row. -/
def scoreOf (e : Entry) : String → ℚ
  | "Joy_Score" => e.joyScore
  | "Sadness_Score" => e.sadnessScore
  | "Anger_Score" => e.angerScore
  | "Fear_Score" => e.fearScore
  | "Surprise_Score" => e.surpriseScore
  | "Disgust_Score" => e.disgustScore
  | "Neutral_Score" => e.neutralScore
  | _ => 0

/-- `plot_df.melt(id_vars=["Period Day"], value_vars=emotion_cols, ...)`:
one `(Period Day, Emotion, value)` row per emotion column and per history
row, column-major as pandas produces it. -/
def melted (df : List Entry) : List (Option Int × String × ℚ) :=
  (emotion_cols.map fun c => df.map fun e => (e.periodDay, c, scoreOf e c)).flatten

/-- The `(Period Day, Emotion)` group keys of the melted table (pandas drops
null keys and sorts them). -/
def aggKeys (df : List Entry) : List (Int × String) :=
  (((melted df).filterMap fun r => r.1.map fun d => (d, r.2.1)).dedup).insertionSort
    fun p q => p.1 < q.1 ∨ (p.1 = q.1 ∧ strLe p.2 q.2 = true)

/-- The group mean of the melted rows at key `(d, c)`. -/
def aggValue (df : List Entry) (d : Int) (c : String) : ℚ :=
  listMean (((melted df).filter fun r => r.1 = some d ∧ r.2.1 = c).map fun r => r.2.2)

/-- `period_agg = melted_df.groupby(["Period Day", "Emotion"])["Average
Confidence"].mean().reset_index()`. -/
def period_agg (df : List Entry) : List (Int × String × ℚ) :=
  (aggKeys df).map fun k => (k.1, k.2, aggValue df k.1 k.2)

/-- The guarded rendering of the cycle-day chart: the source requires all
seven emotion columns to be present (always true of the loaded frame, whose
column layout is fixed) and at least two history rows; otherwise it shows
the insufficient-data message instead. -/
def cycle_day_chart (df : List Entry) : Option (List (Int × String × ℚ)) :=
  if 2 ≤ df.length then some (period_agg df) else none

/-! ## Entry submission (`INSERT` try/except) and `load_user_history` -/

/-- Timestamp as a number of seconds, the sort key of `ORDER BY entry_date
DESC`. -/
def dateSeconds (t : DateTime) : Int :=
  t.day * 86400 + (t.hour : Int) * 3600 + (t.minute : Int) * 60 + (t.second : Int)

/-- `load_user_history`: the stored rows of the user, most recent first
(`SELECT * FROM journal_entries WHERE user_id = %s ORDER BY entry_date
DESC`). -/
def load_user_history (store : List Entry) : List Entry :=
  store.insertionSort fun a b => dateSeconds b.date ≤ dateSeconds a.date

/-- Observable outcome of one entry submission: the in-memory snapshot, the
committed store, the error text shown (if any), and whether the success
banner ran. -/
structure SubmitOutcome where
  history_df : List Entry
  store : List Entry
  shownError : Option String
  successShown : Bool
  deriving DecidableEq

/-- The persistence step of a submission (`try: INSERT ...; commit; reload
... except: error; rollback`).  `insertFails` abstracts whether the
INSERT/COMMIT raises, `errMsg` the exception text.  On success the committed
store gains the row and the snapshot is reloaded from it; on failure the
transaction is rolled back (the store keeps its pre-insert contents), the
error text is surfaced, and the snapshot is left untouched. -/
def submit_entry (history store : List Entry) (e : Entry)
    (insertFails : Bool) (errMsg : String) : SubmitOutcome :=
  if insertFails then
    { history_df := history, store := store,
      shownError := some ("Failed to save entry to database. Details: " ++ errMsg),
      successShown := false }
  else
    let store2 := store ++ [e]
    { history_df := load_user_history store2, store := store2,
      shownError := none, successShown := true }

/-! ## CSV export of the history table -/

/-- `Date_Display = df["Date"].dt.strftime("%Y-%m-%d %H:%M")`: the displayed
timestamp keeps day, hour and minute and drops the seconds. -/
def dateDisplay (t : DateTime) : Int × Nat × Nat := (t.day, t.hour, t.minute)

/-- One row of `display_df`: the selected and renamed columns prepared for
the history table and the CSV export. -/
structure DisplayRow where
  dateTime : Int × Nat × Nat
  periodDay : Option Int
  summary : String
  emotionLabel : String
  confidenceScore : ℚ
  joyScore : ℚ
  sadnessScore : ℚ
  angerScore : ℚ
  fearScore : ℚ
  surpriseScore : ℚ
  disgustScore : ℚ
  neutralScore : ℚ
  deriving DecidableEq

/-- Project a history row to its `display_df` row. -/
def displayRow (e : Entry) : DisplayRow :=
  { dateTime := dateDisplay e.date, periodDay := e.periodDay, summary := e.summary,
    emotionLabel := e.emotionLabel, confidenceScore := e.confidenceScore,
    joyScore := e.joyScore, sadnessScore := e.sadnessScore, angerScore := e.angerScore,
    fearScore := e.fearScore, surpriseScore := e.surpriseScore,
    disgustScore := e.disgustScore, neutralScore := e.neutralScore }

/-- `display_df`: the columns selected for display, in the row order of the
in-memory history (most recent first, as loaded). -/
def display_df (history : List Entry) : List DisplayRow := history.map displayRow

/-- The table the user sees: `st.dataframe(display_df.iloc[::-1])` reverses
the rows, so the screen shows the oldest entry first. -/
def visible_table (history : List Entry) : List DisplayRow :=
  (display_df history).reverse

/-- The rows written by `display_df.to_csv(index=False)`, in `display_df`
order.  The delimited file is modelled as its list of typed rows; the
per-cell text encoding is injective and not modelled. -/
def export_csv (history : List Entry) : List DisplayRow := display_df history

/-- Re-parse one exported row to its
`(date, cycle_day, emotion_label, confidence_score)` tuple. -/
def rowTuple (r : DisplayRow) : (Int × Nat × Nat) × Option Int × String × ℚ :=
  (r.dateTime, r.periodDay, r.emotionLabel, r.confidenceScore)

/-- Re-parse an exported file to its list of
`(date, cycle_day, emotion_label, confidence_score)` tuples, in file row
order. -/
def parse_csv (rows : List DisplayRow) :
    List ((Int × Nat × Nat) × Option Int × String × ℚ) :=
  rows.map rowTuple

/-! ## Helper lemmas -/

theorem pyMaxBy_mem {α : Type} (key : α → ℚ) (x : α) (l : List α) :
    pyMaxBy key x l ∈ x :: l := by
  induction l generalizing x with
  | nil => exact List.mem_cons_self x []
  | cons a l ih =>
    have h := ih (if key x < key a then a else x)
    rw [show pyMaxBy key x (a :: l)
          = pyMaxBy key (if key x < key a then a else x) l from rfl]
    rcases List.mem_cons.1 h with h1 | h1
    · rw [h1]
      by_cases hc : key x < key a
      · rw [if_pos hc]; exact List.mem_cons_of_mem _ (List.mem_cons_self a l)
      · rw [if_neg hc]; exact List.mem_cons_self _ _
    · exact List.mem_cons_of_mem _ (List.mem_cons_of_mem _ h1)

theorem le_pyMaxBy {α : Type} (key : α → ℚ) (x : α) (l : List α) :
    ∀ y ∈ x :: l, key y ≤ key (pyMaxBy key x l) := by
  induction l generalizing x with
  | nil =>
    intro y hy
    rcases List.mem_cons.1 hy with h | h
    · rw [h]; exact le_refl _
    · exact absurd h (List.not_mem_nil y)
  | cons a l ih =>
    intro y hy
    rw [show pyMaxBy key x (a :: l)
          = pyMaxBy key (if key x < key a then a else x) l from rfl]
    have hz : key x ≤ key (if key x < key a then a else x) ∧
        key a ≤ key (if key x < key a then a else x) := by
      by_cases hc : key x < key a
      · rw [if_pos hc]; exact ⟨le_of_lt hc, le_refl _⟩
      · rw [if_neg hc]; exact ⟨le_refl _, le_of_not_lt hc⟩
    have hzfold := ih (if key x < key a then a else x) _ (List.mem_cons_self _ _)
    rcases List.mem_cons.1 hy with h | h
    · rw [h]; exact le_trans hz.1 hzfold
    · rcases List.mem_cons.1 h with h2 | h2
      · rw [h2]; exact le_trans hz.2 hzfold
      · exact ih _ y (List.mem_cons_of_mem _ h2)

/-! ## Claim theorems -/

/-- C5: `fact_of_day` is a pure function of the current date selecting index
`day_of_year mod N` from the fixed ordered fact list with `N = 31`; calls on
the same calendar date agree by functionality, and dates whose day-of-year
values differ by exactly 31 select the same fact. -/
theorem get_period_fact_of_day_spec :
    facts.length = 31 ∧
    (∀ d : Nat, get_period_fact_of_day d = facts.getD (d % 31) ⟨"", "", ""⟩) ∧
    (∀ d : Nat, get_period_fact_of_day (d + 31) = get_period_fact_of_day d) := by
  refine ⟨rfl, fun d => rfl, fun d => ?_⟩
  show facts.getD ((d + 31) % facts.length) _ = facts.getD (d % facts.length) _
  rw [show facts.length = 31 from rfl, Nat.add_mod_right]

/-- C8: when the database insert fails, the transaction is rolled back (the
store is unchanged), the error text is shown, and the in-memory snapshot is
left untouched; the snapshot is reloaded only on the success branch, after
the insert committed. -/
theorem submit_entry_spec (history store : List Entry) (e : Entry) (msg : String) :
    ((submit_entry history store e true msg).history_df = history ∧
      (submit_entry history store e true msg).store = store ∧
      (submit_entry history store e true msg).shownError
        = some ("Failed to save entry to database. Details: " ++ msg) ∧
      (submit_entry history store e true msg).successShown = false) ∧
    ((submit_entry history store e false msg).history_df
        = load_user_history (store ++ [e]) ∧
      (submit_entry history store e false msg).store = store ++ [e] ∧
      (submit_entry history store e false msg).shownError = none) :=
  ⟨⟨rfl, rfl, rfl, rfl⟩, rfl, rfl, rfl⟩

/-- C9 counterexample: on a two-entry history the CSV rows come out in
`display_df` order (most recent first) while the table the user sees is
reversed, so re-parsing the export does not reproduce the visible row
order. -/
theorem export_csv_order_counterexample :
    parse_csv (export_csv
        [mkEntry 20 (some 2) "sadness" 1, mkEntry 10 (some 1) "joy" 0])
      ≠ parse_csv (visible_table
        [mkEntry 20 (some 2) "sadness" 1, mkEntry 10 (some 1) "joy" 0]) := by
  decide

/-- C9 amended: exporting the history to the delimited format and re-parsing
it recovers the same (date, cycle_day, emotion_label, confidence_score)
tuples in the row order of the in-memory history (most recent first), which
is the reverse of the row order of the table shown on screen. -/
theorem export_csv_roundtrip (history : List Entry) :
    parse_csv (export_csv history)
      = history.map (fun e => rowTuple (displayRow e)) ∧
    parse_csv (export_csv history)
      = (parse_csv (visible_table history)).reverse := by
  constructor
  · simp [parse_csv, export_csv, display_df, List.map_map]
  · simp [parse_csv, export_csv, visible_table, display_df, List.map_reverse,
      List.reverse_reverse]

/-- C4: `content_for` matches the emotion label case-insensitively against
the fixed seven-entry table, falls back to the neutral entry for unknown
labels, matches the cycle day against the fixed table for days 1..7 and
falls back to the generic advice outside that range; in particular
`content_for("JOY", 3) = content_for("joy", 3)`. -/
theorem get_emotion_content_spec :
    (∀ e1 e2 : String, ∀ d : Int, pyLower e1 = pyLower e2 →
      get_emotion_content e1 d = get_emotion_content e2 d) ∧
    (∀ e : String, ∀ d : Int, emotion_data.lookup (pyLower e) = none →
      (get_emotion_content e d).quote = neutralBase.quote ∧
      (get_emotion_content e d).tip = neutralBase.tip ∧
      (get_emotion_content e d).color = neutralBase.color ∧
      (get_emotion_content e d).emoji = neutralBase.emoji) ∧
    (∀ e : String, ∀ d : Int, (d < 1 ∨ 7 < d) →
      (get_emotion_content e d).cycle_advice = genericCycleAdvice) ∧
    get_emotion_content "JOY" 3 = get_emotion_content "joy" 3 := by
  have hci : ∀ e1 e2 : String, ∀ d : Int, pyLower e1 = pyLower e2 →
      get_emotion_content e1 d = get_emotion_content e2 d := by
    intro e1 e2 d h
    unfold get_emotion_content
    rw [h]
  refine ⟨hci, ?_, ?_, hci "JOY" "joy" 3 (by decide)⟩
  · intro e d h
    unfold get_emotion_content
    rw [h]
    exact ⟨rfl, rfl, rfl, rfl⟩
  · intro e d hd
    have h1 : (d == (1 : Int)) = false := by simp; omega
    have h2 : (d == (2 : Int)) = false := by simp; omega
    have h3 : (d == (3 : Int)) = false := by simp; omega
    have h4 : (d == (4 : Int)) = false := by simp; omega
    have h5 : (d == (5 : Int)) = false := by simp; omega
    have h6 : (d == (6 : Int)) = false := by simp; omega
    have h7 : (d == (7 : Int)) = false := by simp; omega
    unfold get_emotion_content
    simp [cycle_tips, List.lookup, h1, h2, h3, h4, h5, h6, h7]

/-- C4 witness: the case-insensitive match, the unknown-label fallback and
the out-of-range cycle-day fallback at concrete inputs. -/
theorem get_emotion_content_spec_witness :
    get_emotion_content "JOY" 3 = get_emotion_content "joy" 3 ∧
    (get_emotion_content "unknown_label" 3).quote = neutralBase.quote ∧
    (get_emotion_content "mystery" 9).cycle_advice = genericCycleAdvice :=
  ⟨get_emotion_content_spec.2.2.2,
   (get_emotion_content_spec.2.1 "unknown_label" 3 (by decide)).1,
   get_emotion_content_spec.2.2.1 "mystery" 9 (by decide)⟩

/-- C6: on a non-empty classifier result list the adapter returns the label
and score of a maximum-score entry (the first one, as Python `max` does) and
passes the full per-label score list through unchanged. -/
theorem analyze_emotion_spec (results : List LabelScore) (h : results ≠ []) :
    ∃ t, t ∈ results ∧
      analyze_emotion results = some (t.label, t.score, results) ∧
      ∀ r ∈ results, r.score ≤ t.score := by
  rcases results with _ | ⟨x, rest⟩
  · exact absurd rfl h
  · refine ⟨pyMaxBy (fun r => r.score) x rest, pyMaxBy_mem _ x rest, rfl, ?_⟩
    intro r hr
    exact le_pyMaxBy (fun r => r.score) x rest r hr

/-- C6 witness: the adapter on a concrete two-label result list. -/
theorem analyze_emotion_spec_witness :
    ∃ t, t ∈ [LabelScore.mk "joy" 1, LabelScore.mk "sadness" 0] ∧
      analyze_emotion [LabelScore.mk "joy" 1, LabelScore.mk "sadness" 0]
        = some (t.label, t.score,
            [LabelScore.mk "joy" 1, LabelScore.mk "sadness" 0]) ∧
      ∀ r ∈ [LabelScore.mk "joy" 1, LabelScore.mk "sadness" 0],
        r.score ≤ t.score :=
  analyze_emotion_spec _ (by decide)

theorem consecutiveRun_spec : ∀ (d : Int) (rest : List Int),
    runSpec (d :: rest) (1 + consecutiveRun (d :: rest)) := by
  intro d rest
  induction rest generalizing d with
  | nil =>
    have h0 : consecutiveRun [d] = 0 := rfl
    rw [h0]
    refine ⟨le_refl 1, by simp, ?_, ?_⟩
    · intro i hi; omega
    · intro hk; simp at hk
  | cons a l ih =>
    have hcr : consecutiveRun (d :: a :: l)
        = if d - a = 1 then consecutiveRun (a :: l) + 1 else 0 := rfl
    obtain ⟨ih1, ih2, ih3, ih4⟩ := ih a
    by_cases hd : d - a = 1
    · rw [hcr, if_pos hd]
      have hlen : (d :: a :: l).length = (a :: l).length + 1 := by simp
      refine ⟨by omega, by omega, ?_, ?_⟩
      · intro i hi
        cases i with
        | zero => simpa using hd
        | succ j =>
          have hj := ih3 j (by omega)
          simpa [List.getD_cons_succ] using hj
      · intro hk
        have hk2 : 1 + consecutiveRun (a :: l) < (a :: l).length := by
          rw [hlen] at hk; omega
        have h4 := ih4 hk2
        have e3 : 1 + consecutiveRun (a :: l) - 1 = consecutiveRun (a :: l) := by omega
        have e4 : 1 + consecutiveRun (a :: l) = consecutiveRun (a :: l) + 1 := by omega
        rw [e3, e4] at h4
        have e1 : 1 + (consecutiveRun (a :: l) + 1) - 1 = consecutiveRun (a :: l) + 1 := by
          omega
        have e2 : 1 + (consecutiveRun (a :: l) + 1) = consecutiveRun (a :: l) + 1 + 1 := by
          omega
        rw [e1, e2, List.getD_cons_succ, List.getD_cons_succ]
        exact h4
    · rw [hcr, if_neg hd]
      have hlen : (d :: a :: l).length = (a :: l).length + 1 := by simp
      refine ⟨by omega, by omega, ?_, ?_⟩
      · intro i hi; omega
      · intro hk
        simpa using hd

theorem calculate_streak_eq (history : List DateTime) (today : Int)
    (d : Int) (rest : List Int) (hne : history ≠ [])
    (hdr : distinctDatesDesc history = d :: rest) :
    calculate_streak history today =
      if d = today ∨ d = today - 1 then 1 + consecutiveRun (d :: rest) else 0 := by
  have hemp : history.isEmpty = false := by
    cases history with
    | nil => exact absurd rfl hne
    | cons a t => rfl
  unfold calculate_streak
  rw [hemp, hdr]
  simp

/-- C1: the streak is 0 on an empty history; the distinct dates are strictly
descending, so the head of the list is the most recent distinct date; if
that date is neither today nor yesterday the streak is 0; otherwise the
streak is the length of the maximal leading run of exactly-one-day gaps in
the distinct descending date list. -/
theorem calculate_streak_spec (history : List DateTime) (today : Int) :
    (history = [] → calculate_streak history today = 0) ∧
    List.Sorted (· > ·) (distinctDatesDesc history) ∧
    ∀ d rest, distinctDatesDesc history = d :: rest →
      ((d ≠ today ∧ d ≠ today - 1) → calculate_streak history today = 0) ∧
      ((d = today ∨ d = today - 1) →
        runSpec (d :: rest) (calculate_streak history today)) := by
  refine ⟨?_, ?_, ?_⟩
  · intro h; rw [h]; rfl
  · have hs : List.Sorted (· ≥ ·) (distinctDatesDesc history) :=
      List.sorted_insertionSort _ _
    have hnd : (distinctDatesDesc history).Nodup := by
      have hp : List.Perm (distinctDatesDesc history) ((history.map calDate).dedup) :=
        List.perm_insertionSort _ _
      exact hp.nodup_iff.2 (List.nodup_dedup _)
    exact hs.imp₂ (fun a b hge hne => lt_of_le_of_ne hge (Ne.symm hne)) hnd
  · intro d rest hdr
    have hne : history ≠ [] := by
      intro h
      rw [h] at hdr
      simp [distinctDatesDesc] at hdr
    rw [calculate_streak_eq history today d rest hne hdr]
    constructor
    · intro hno
      rw [if_neg]
      rintro (h | h)
      · exact hno.1 h
      · exact hno.2 h
    · intro hyes
      rw [if_pos hyes]
      exact consecutiveRun_spec d rest

/-- C1 witness: a history with entries on days 10, 9 (twice, differing in
time of day) and 7, with current date 10: the streak is 2 and is a maximal
leading run of the distinct descending dates. -/
theorem calculate_streak_spec_witness :
    calculate_streak
        [⟨10, 8, 0, 0⟩, ⟨9, 12, 30, 0⟩, ⟨9, 7, 0, 0⟩, ⟨7, 0, 0, 0⟩] 10 = 2 ∧
    runSpec (10 :: [9, 7])
      (calculate_streak
        [⟨10, 8, 0, 0⟩, ⟨9, 12, 30, 0⟩, ⟨9, 7, 0, 0⟩, ⟨7, 0, 0, 0⟩] 10) :=
  ⟨by decide,
   ((calculate_streak_spec _ 10).2.2 10 [9, 7] (by decide)).2 (Or.inl rfl)⟩

theorem lexLe_refl : ∀ as : List Char, lexLe as as = true := by
  intro as
  induction as with
  | nil => rfl
  | cons a as ih => simp [lexLe, ih]

theorem lexLe_total : ∀ as bs : List Char, lexLe as bs = true ∨ lexLe bs as = true := by
  intro as
  induction as with
  | nil => intro bs; left; rfl
  | cons a as ih =>
    intro bs
    cases bs with
    | nil => right; rfl
    | cons b bs =>
      by_cases h1 : a.toNat < b.toNat
      · left; simp [lexLe, h1]
      · by_cases h2 : b.toNat < a.toNat
        · right; simp [lexLe, h2]
        · rcases ih bs with h | h
          · left; simp [lexLe, h1, h2, h]
          · right; simp [lexLe, h1, h2, h]

theorem lexLe_trans : ∀ as bs cs : List Char,
    lexLe as bs = true → lexLe bs cs = true → lexLe as cs = true := by
  intro as
  induction as with
  | nil => intro bs cs _ _; rfl
  | cons a as ih =>
    intro bs cs hab hbc
    cases bs with
    | nil => simp [lexLe] at hab
    | cons b bs =>
      cases cs with
      | nil => simp [lexLe] at hbc
      | cons c cs =>
        simp only [lexLe] at hab hbc ⊢
        by_cases h1 : a.toNat < b.toNat
        · by_cases h2 : b.toNat < c.toNat
          · have h3 : a.toNat < c.toNat := by omega
            simp [h3]
          · by_cases h4 : c.toNat < b.toNat
            · simp [h2, h4] at hbc
            · have h3 : a.toNat < c.toNat := by omega
              simp [h3]
        · by_cases h5 : b.toNat < a.toNat
          · simp [h1, h5] at hab
          · by_cases h2 : b.toNat < c.toNat
            · have h3 : a.toNat < c.toNat := by omega
              simp [h3]
            · by_cases h4 : c.toNat < b.toNat
              · simp [h2, h4] at hbc
              · have h3 : ¬ a.toNat < c.toNat := by omega
                have h6 : ¬ c.toNat < a.toNat := by omega
                have hab2 : lexLe as bs = true := by simpa [h1, h5] using hab
                have hbc2 : lexLe bs cs = true := by simpa [h2, h4] using hbc
                simp [h3, h6]
                exact ih bs cs hab2 hbc2

theorem strLe_refl (s : String) : strLe s s = true := lexLe_refl s.data

instance : IsTotal String fun a b => strLe a b = true :=
  ⟨fun a b => lexLe_total a.data b.data⟩

instance : IsTrans String fun a b => strLe a b = true :=
  ⟨fun a b c => lexLe_trans a.data b.data c.data⟩

theorem le_foldr_max (L : List Nat) : ∀ x ∈ L, x ≤ L.foldr max 0 := by
  induction L with
  | nil => intro x hx; exact absurd hx (List.not_mem_nil x)
  | cons a L ih =>
    intro x hx
    rcases List.mem_cons.1 hx with h | h
    · rw [h]; show a ≤ max a (L.foldr max 0); exact le_max_left _ _
    · show x ≤ max a (L.foldr max 0)
      exact le_trans (ih x h) (le_max_right _ _)

theorem foldr_max_mem (L : List Nat) (h : L ≠ []) : L.foldr max 0 ∈ L := by
  induction L with
  | nil => exact absurd rfl h
  | cons a L ih =>
    show max a (L.foldr max 0) ∈ a :: L
    cases L with
    | nil => simp
    | cons b M =>
      rcases max_choice a ((b :: M).foldr max 0) with h1 | h1
      · rw [h1]; exact List.mem_cons_self _ _
      · rw [h1]; exact List.mem_cons_of_mem _ (ih (by simp))

theorem count_le_maxCount (l : List String) (v : String) (hv : v ∈ l) :
    l.count v ≤ maxCount l := by
  have hd : v ∈ l.dedup := List.mem_dedup.2 hv
  have hmem : l.count v ∈ l.dedup.map fun w => l.count w :=
    List.mem_map_of_mem _ hd
  exact le_foldr_max _ _ hmem

theorem maxCount_attained (l : List String) (h : l ≠ []) :
    ∃ v ∈ l.dedup, l.count v = maxCount l := by
  have hd : l.dedup ≠ [] := fun h0 => h ((List.dedup_eq_nil l).1 h0)
  have hm : (l.dedup.map fun w => l.count w) ≠ [] := by
    intro h0
    exact hd (List.map_eq_nil_iff.1 h0)
  have hmem := foldr_max_mem _ hm
  rw [List.mem_map] at hmem
  obtain ⟨v, hv, hveq⟩ := hmem
  exact ⟨v, hv, hveq⟩

theorem mem_seriesMode (l : List String) (v : String) :
    v ∈ seriesMode l ↔ v ∈ l.dedup ∧ l.count v = maxCount l := by
  unfold seriesMode sortStrings
  rw [List.mem_filter]
  constructor
  · rintro ⟨h1, h2⟩
    exact ⟨(List.perm_insertionSort _ _).mem_iff.1 h1, by simpa using h2⟩
  · rintro ⟨h1, h2⟩
    exact ⟨(List.perm_insertionSort _ _).mem_iff.2 h1, by simpa using h2⟩

theorem seriesMode_sorted (l : List String) :
    (seriesMode l).Pairwise fun a b => strLe a b = true := by
  have hs : List.Sorted (fun a b => strLe a b = true) (sortStrings l.dedup) :=
    List.sorted_insertionSort _ _
  exact List.Pairwise.sublist (List.filter_sublist _) hs

theorem seriesMode_head_spec (l : List String) (h : l ≠ []) :
    ∃ m, (seriesMode l).head? = some m ∧ m ∈ l.dedup ∧
      l.count m = maxCount l ∧
      ∀ v ∈ l.dedup, l.count v = maxCount l → strLe m v = true := by
  obtain ⟨w, hw, hweq⟩ := maxCount_attained l h
  have hwm : w ∈ seriesMode l := (mem_seriesMode l w).2 ⟨hw, hweq⟩
  cases hsm : seriesMode l with
  | nil => rw [hsm] at hwm; exact absurd hwm (List.not_mem_nil w)
  | cons m t =>
    have hm : m ∈ seriesMode l := by
      rw [hsm]; exact List.mem_cons_self _ _
    obtain ⟨hm1, hm2⟩ := (mem_seriesMode l m).1 hm
    refine ⟨m, by simp [hsm], hm1, hm2, ?_⟩
    intro v hv hvc
    have hvm : v ∈ seriesMode l := (mem_seriesMode l v).2 ⟨hv, hvc⟩
    rw [hsm] at hvm
    rcases List.mem_cons.1 hvm with h1 | h1
    · rw [h1]; exact strLe_refl m
    · have hp := seriesMode_sorted l
      rw [hsm] at hp
      exact (List.pairwise_cons.1 hp).1 v h1

/-- C2: insight extraction returns `None` exactly when the history has fewer
than 3 rows, regardless of content; with at least 3 rows it returns a result
whose `most_common_emotion` is an emotion label of maximal occurrence count
over all rows (and whose `total_entries` is the row count). -/
theorem get_insights_spec (df : List Entry) :
    (get_insights df = none ↔ df.length < 3) ∧
    (3 ≤ df.length →
      ∃ ins, get_insights df = some ins ∧ ins.total_entries = df.length ∧
        ∃ m, ins.most_common_emotion = some m ∧
          m ∈ df.map (fun e => e.emotionLabel) ∧
          ∀ lab ∈ df.map (fun e => e.emotionLabel),
            (df.map fun e => e.emotionLabel).count lab
              ≤ (df.map fun e => e.emotionLabel).count m) := by
  constructor
  · unfold get_insights
    by_cases h : df.isEmpty ∨ df.length < 3
    · rw [if_pos h]
      simp only [true_iff]
      rcases h with h | h
      · rw [List.isEmpty_iff.1 h]; simp
      · exact h
    · rw [if_neg h]
      simp only [reduceCtorEq, false_iff]
      exact fun hlt => h (Or.inr hlt)
  · intro h3
    have hne : df ≠ [] := by
      intro h0; rw [h0] at h3; simp at h3
    have hcond2 : ¬ (df.isEmpty ∨ df.length < 3) := by
      rintro (h | h)
      · exact hne (List.isEmpty_iff.1 h)
      · omega
    have hlabs : df.map (fun e => e.emotionLabel) ≠ [] := by
      intro h0
      exact hne (List.map_eq_nil_iff.1 h0)
    obtain ⟨m, hm1, hm2, hm3, _⟩ :=
      seriesMode_head_spec (df.map fun e => e.emotionLabel) hlabs
    refine ⟨{ most_common_emotion := (seriesMode (df.map fun e => e.emotionLabel)).head?,
              best_day := best_day df, total_entries := df.length },
            ?_, rfl, m, hm1, List.mem_dedup.1 hm2, ?_⟩
    · unfold get_insights
      rw [if_neg hcond2]
    · intro lab hlab
      rw [hm3]
      exact count_le_maxCount _ lab hlab

/-- C2 witness: a three-entry history with emotions joy, joy, sadness: the
result is non-null and its most common emotion is joy. -/
theorem get_insights_spec_witness :
    3 ≤ ([mkEntry 1 none "joy" 0, mkEntry 2 none "joy" 0,
          mkEntry 3 none "sadness" 0] : List Entry).length ∧
    (∃ ins, get_insights [mkEntry 1 none "joy" 0, mkEntry 2 none "joy" 0,
          mkEntry 3 none "sadness" 0] = some ins ∧
        ins.total_entries = ([mkEntry 1 none "joy" 0, mkEntry 2 none "joy" 0,
          mkEntry 3 none "sadness" 0] : List Entry).length ∧
        ∃ m, ins.most_common_emotion = some m ∧
          m ∈ ([mkEntry 1 none "joy" 0, mkEntry 2 none "joy" 0,
            mkEntry 3 none "sadness" 0] : List Entry).map (fun e => e.emotionLabel) ∧
          ∀ lab ∈ ([mkEntry 1 none "joy" 0, mkEntry 2 none "joy" 0,
            mkEntry 3 none "sadness" 0] : List Entry).map (fun e => e.emotionLabel),
            (([mkEntry 1 none "joy" 0, mkEntry 2 none "joy" 0,
              mkEntry 3 none "sadness" 0] : List Entry).map fun e => e.emotionLabel).count lab
              ≤ (([mkEntry 1 none "joy" 0, mkEntry 2 none "joy" 0,
              mkEntry 3 none "sadness" 0] : List Entry).map fun e => e.emotionLabel).count m) ∧
    ((get_insights [mkEntry 1 none "joy" 0, mkEntry 2 none "joy" 0,
        mkEntry 3 none "sadness" 0]).map fun i => i.most_common_emotion)
      = some (some "joy") :=
  ⟨by decide, (get_insights_spec _).2 (by decide), by decide⟩

/-- C10: on a history of at least 3 rows in which two distinct labels tie
for the maximal occurrence count, `most_common_emotion` is still determined:
it is a maximal-count label that is smallest in Python string order among
all maximal-count labels (pandas `mode` returns the tied values sorted and
the code takes element 0). -/
theorem mode_tiebreak_spec (df : List Entry) (h3 : 3 ≤ df.length)
    (a b : String) (_hne : a ≠ b)
    (_ha : a ∈ df.map fun e => e.emotionLabel)
    (_hb : b ∈ df.map fun e => e.emotionLabel)
    (_hca : (df.map fun e => e.emotionLabel).count a
        = maxCount (df.map fun e => e.emotionLabel))
    (_hcb : (df.map fun e => e.emotionLabel).count b
        = maxCount (df.map fun e => e.emotionLabel)) :
    ∃ ins, get_insights df = some ins ∧
      ∃ m, ins.most_common_emotion = some m ∧
        (df.map fun e => e.emotionLabel).count m
          = maxCount (df.map fun e => e.emotionLabel) ∧
        ∀ v ∈ df.map fun e => e.emotionLabel,
          (df.map fun e => e.emotionLabel).count v
              = maxCount (df.map fun e => e.emotionLabel) →
            strLe m v = true := by
  have hnil : df ≠ [] := by
    intro h0; rw [h0] at h3; simp at h3
  have hcond2 : ¬ (df.isEmpty ∨ df.length < 3) := by
    rintro (h | h)
    · exact hnil (List.isEmpty_iff.1 h)
    · omega
  have hlabs : df.map (fun e => e.emotionLabel) ≠ [] := by
    intro h0
    exact hnil (List.map_eq_nil_iff.1 h0)
  obtain ⟨m, hm1, hm2, hm3, hm4⟩ :=
    seriesMode_head_spec (df.map fun e => e.emotionLabel) hlabs
  refine ⟨{ most_common_emotion := (seriesMode (df.map fun e => e.emotionLabel)).head?,
            best_day := best_day df, total_entries := df.length },
          ?_, m, hm1, hm3, ?_⟩
  · unfold get_insights
    rw [if_neg hcond2]
  · intro v hv hvc
    exact hm4 v (List.mem_dedup.2 hv) hvc

/-- C10 witness: four entries with emotions sadness, joy, sadness, joy:
joy and sadness tie with count 2 and the reported most common emotion is
the smaller label of the two in string order. -/
theorem mode_tiebreak_spec_witness :
    ∃ ins, get_insights [mkEntry 1 none "sadness" 0, mkEntry 2 none "joy" 0,
        mkEntry 3 none "sadness" 0, mkEntry 4 none "joy" 0] = some ins ∧
      ∃ m, ins.most_common_emotion = some m ∧
        (([mkEntry 1 none "sadness" 0, mkEntry 2 none "joy" 0,
            mkEntry 3 none "sadness" 0, mkEntry 4 none "joy" 0] : List Entry).map
            fun e => e.emotionLabel).count m
          = maxCount (([mkEntry 1 none "sadness" 0, mkEntry 2 none "joy" 0,
            mkEntry 3 none "sadness" 0, mkEntry 4 none "joy" 0] : List Entry).map
            fun e => e.emotionLabel) ∧
        ∀ v ∈ ([mkEntry 1 none "sadness" 0, mkEntry 2 none "joy" 0,
            mkEntry 3 none "sadness" 0, mkEntry 4 none "joy" 0] : List Entry).map
            fun e => e.emotionLabel,
          (([mkEntry 1 none "sadness" 0, mkEntry 2 none "joy" 0,
              mkEntry 3 none "sadness" 0, mkEntry 4 none "joy" 0] : List Entry).map
              fun e => e.emotionLabel).count v
              = maxCount (([mkEntry 1 none "sadness" 0, mkEntry 2 none "joy" 0,
                mkEntry 3 none "sadness" 0, mkEntry 4 none "joy" 0] : List Entry).map
                fun e => e.emotionLabel) →
            strLe m v = true :=
  mode_tiebreak_spec _ (by decide) "joy" "sadness" (by decide) (by decide)
    (by decide) (by decide) (by decide)

/-- C3: for a history of at least 3 rows, the best day reported by insight
extraction is a group key (a cycle day occurring in the data) whose group
has the highest mean confidence score, and it is null exactly when no row
carries a cycle day. -/
theorem best_day_spec (df : List Entry) (h3 : 3 ≤ df.length) :
    (∀ ins, get_insights df = some ins → ins.best_day = best_day df) ∧
    (best_day df = none ↔ ∀ e ∈ df, e.periodDay = none) ∧
    (∀ d, best_day df = some d →
      d ∈ dayKeys df ∧ ∀ d2 ∈ dayKeys df, dayMean df d2 ≤ dayMean df d) := by
  have hnil : df ≠ [] := by
    intro h0; rw [h0] at h3; simp at h3
  have hcond2 : ¬ (df.isEmpty ∨ df.length < 3) := by
    rintro (h | h)
    · exact hnil (List.isEmpty_iff.1 h)
    · omega
  refine ⟨?_, ?_, ?_⟩
  · intro ins hins
    unfold get_insights at hins
    rw [if_neg hcond2] at hins
    simp only [Option.some.injEq] at hins
    rw [← hins]
  · have hkeys : dayKeys df = [] ↔ (df.filterMap fun e => e.periodDay) = [] := by
      constructor
      · intro h
        have hp : List.Perm (dayKeys df) ((df.filterMap fun e => e.periodDay).dedup) :=
          List.perm_insertionSort _ _
        rw [h] at hp
        have hd : (df.filterMap fun e => e.periodDay).dedup = [] := hp.symm.eq_nil
        exact (List.dedup_eq_nil _).1 hd
      · intro h
        unfold dayKeys
        rw [h]
        rfl
    have hmatch : best_day df = none ↔ dayKeys df = [] := by
      unfold best_day
      cases h : dayKeys df with
      | nil => simp
      | cons d rest => simp
    rw [hmatch, hkeys]
    exact List.filterMap_eq_nil_iff
  · intro d hd
    unfold best_day at hd
    cases hk : dayKeys df with
    | nil => rw [hk] at hd; simp at hd
    | cons d0 rest =>
      rw [hk] at hd
      simp only [Option.some.injEq] at hd
      rw [← hd]
      exact ⟨pyMaxBy_mem _ d0 rest, le_pyMaxBy _ d0 rest⟩

/-- C3 witness: three entries on cycle days 1, 2, 2 with confidences 0, 1, 1:
the best day is 2, a group key of maximal mean confidence. -/
theorem best_day_spec_witness :
    best_day [mkEntry 1 (some 1) "joy" 0, mkEntry 2 (some 2) "joy" 1,
        mkEntry 3 (some 2) "sadness" 1] = some 2 ∧
    2 ∈ dayKeys [mkEntry 1 (some 1) "joy" 0, mkEntry 2 (some 2) "joy" 1,
        mkEntry 3 (some 2) "sadness" 1] ∧
    ∀ d2 ∈ dayKeys [mkEntry 1 (some 1) "joy" 0, mkEntry 2 (some 2) "joy" 1,
        mkEntry 3 (some 2) "sadness" 1],
      dayMean [mkEntry 1 (some 1) "joy" 0, mkEntry 2 (some 2) "joy" 1,
          mkEntry 3 (some 2) "sadness" 1] d2
        ≤ dayMean [mkEntry 1 (some 1) "joy" 0, mkEntry 2 (some 2) "joy" 1,
            mkEntry 3 (some 2) "sadness" 1] 2 := by
  have hlt : dayMean [mkEntry 1 (some 1) "joy" 0, mkEntry 2 (some 2) "joy" 1,
      mkEntry 3 (some 2) "sadness" 1] 1
      < dayMean [mkEntry 1 (some 1) "joy" 0, mkEntry 2 (some 2) "joy" 1,
      mkEntry 3 (some 2) "sadness" 1] 2 := by
    show listMean [(0 : ℚ)] < listMean [(1 : ℚ), 1]
    norm_num [listMean]
  have hb : best_day [mkEntry 1 (some 1) "joy" 0, mkEntry 2 (some 2) "joy" 1,
      mkEntry 3 (some 2) "sadness" 1] = some 2 := by
    show some (if dayMean [mkEntry 1 (some 1) "joy" 0, mkEntry 2 (some 2) "joy" 1,
        mkEntry 3 (some 2) "sadness" 1] 1
        < dayMean [mkEntry 1 (some 1) "joy" 0, mkEntry 2 (some 2) "joy" 1,
        mkEntry 3 (some 2) "sadness" 1] 2 then (2 : Int) else 1) = some 2
    rw [if_pos hlt]
  have hrest := (best_day_spec _ (by decide)).2.2 2 hb
  exact ⟨hb, hrest.1, hrest.2⟩

theorem filter_block_ne (df : List Entry) (d : Int) (c k : String) (hkc : k ≠ c) :
    (df.map fun e => ((e.periodDay : Option Int), k, scoreOf e k)).filter
        (fun r => r.1 = some d ∧ r.2.1 = c) = [] := by
  induction df with
  | nil => rfl
  | cons e df ih => simp [List.filter_cons, hkc, ih]

theorem filter_block_eq (df : List Entry) (d : Int) (c : String) :
    ((df.map fun e => ((e.periodDay : Option Int), c, scoreOf e c)).filter
        (fun r => r.1 = some d ∧ r.2.1 = c)).map (fun r => r.2.2)
    = (groupDay df d).map fun e => scoreOf e c := by
  induction df with
  | nil => rfl
  | cons e df ih =>
    show ((((e.periodDay, c, scoreOf e c) ::
          df.map fun e => ((e.periodDay : Option Int), c, scoreOf e c)).filter
        (fun r => r.1 = some d ∧ r.2.1 = c)).map fun r => r.2.2)
      = ((e :: df).filter fun e => e.periodDay = some d).map fun e => scoreOf e c
    rw [List.filter_cons, List.filter_cons]
    by_cases h : e.periodDay = some d
    · rw [if_pos (by simp [h]), if_pos (by simp [h])]
      rw [List.map_cons, List.map_cons, ih]
      rfl
    · rw [if_neg (by simp [h]), if_neg (by simp [h])]
      rw [ih]
      rfl

theorem filter_melted_nil (df : List Entry) (d : Int) (c : String) :
    ∀ cols : List String, c ∉ cols →
    ((cols.map fun k => df.map fun e => (e.periodDay, k, scoreOf e k)).flatten.filter
        (fun r => r.1 = some d ∧ r.2.1 = c)) = [] := by
  intro cols
  induction cols with
  | nil => intro _; rfl
  | cons k cols ih =>
    intro hc
    rw [List.map_cons, List.flatten_cons, List.filter_append]
    have hkc : k ≠ c := by
      intro h
      exact hc (by rw [← h]; exact List.mem_cons_self _ _)
    rw [filter_block_ne df d c k hkc, ih (fun h => hc (List.mem_cons_of_mem _ h))]
    rfl

theorem filter_melted (df : List Entry) (d : Int) (c : String) :
    ∀ cols : List String, cols.Nodup → c ∈ cols →
    (((cols.map fun k => df.map fun e => (e.periodDay, k, scoreOf e k)).flatten.filter
        (fun r => r.1 = some d ∧ r.2.1 = c)).map fun r => r.2.2)
    = (groupDay df d).map fun e => scoreOf e c := by
  intro cols
  induction cols with
  | nil => intro _ hc; exact absurd hc (List.not_mem_nil c)
  | cons k cols ih =>
    intro hnd hc
    rw [List.map_cons, List.flatten_cons, List.filter_append, List.map_append]
    rcases List.mem_cons.1 hc with h | h
    · have hrest : c ∉ cols := by
        rw [h]
        exact (List.nodup_cons.1 hnd).1
      rw [← h, filter_melted_nil df d c cols hrest, filter_block_eq df d c]
      simp
    · have hkc : k ≠ c := by
        intro he
        exact (List.nodup_cons.1 hnd).1 (he ▸ h)
      rw [filter_block_ne df d c k hkc, ih (List.nodup_cons.1 hnd).2 h]
      rfl

theorem aggValue_eq (df : List Entry) (d : Int) (c : String) (hc : c ∈ emotion_cols) :
    aggValue df d c = listMean ((groupDay df d).map fun e => scoreOf e c) := by
  unfold aggValue melted
  rw [filter_melted df d c emotion_cols (by decide) hc]

theorem mem_melted (df : List Entry) (r : Option Int × String × ℚ) :
    r ∈ melted df ↔ ∃ c ∈ emotion_cols, ∃ e ∈ df, r = (e.periodDay, c, scoreOf e c) := by
  unfold melted
  rw [List.mem_flatten]
  constructor
  · rintro ⟨blk, hblk, hr⟩
    rw [List.mem_map] at hblk
    obtain ⟨c, hc, rfl⟩ := hblk
    rw [List.mem_map] at hr
    obtain ⟨e, he, rfl⟩ := hr
    exact ⟨c, hc, e, he, rfl⟩
  · rintro ⟨c, hc, e, he, rfl⟩
    exact ⟨df.map fun e => (e.periodDay, c, scoreOf e c),
           List.mem_map_of_mem _ hc, List.mem_map_of_mem _ he⟩

theorem mem_aggKeys (df : List Entry) (d : Int) (c : String) :
    (d, c) ∈ aggKeys df ↔ c ∈ emotion_cols ∧ ∃ e ∈ df, e.periodDay = some d := by
  unfold aggKeys
  rw [(List.perm_insertionSort _ _).mem_iff, List.mem_dedup, List.mem_filterMap]
  constructor
  · rintro ⟨r, hr, hf⟩
    rw [Option.map_eq_some'] at hf
    obtain ⟨d0, hr1, hf2⟩ := hf
    obtain ⟨c0, hc0, e, he, rfl⟩ := (mem_melted df r).1 hr
    simp only [Prod.mk.injEq] at hf2
    obtain ⟨hd0, hc⟩ := hf2
    refine ⟨?_, e, he, ?_⟩
    · rw [← hc]; exact hc0
    · have hr2 : e.periodDay = some d0 := hr1
      rw [hr2, hd0]
  · rintro ⟨hc, e, he, hpd⟩
    refine ⟨(e.periodDay, c, scoreOf e c), (mem_melted df _).2 ⟨c, hc, e, he, rfl⟩, ?_⟩
    rw [hpd]
    rfl

/-- C7: the cycle-day aggregation is produced exactly when the history has
at least two rows (otherwise the insufficient-data message is shown), and
every produced cell `(d, c, v)` has `v` equal to the mean of the per-emotion
score `c` over all rows whose cycle day is `d`; conversely every pair of an
emotion column and a cycle day occurring in the data is produced. -/
theorem period_agg_spec (df : List Entry) :
    ((cycle_day_chart df).isSome ↔ 2 ≤ df.length) ∧
    ∀ agg, cycle_day_chart df = some agg →
      (∀ d c v, (d, c, v) ∈ agg →
        c ∈ emotion_cols ∧ (∃ e ∈ df, e.periodDay = some d) ∧
        v = listMean ((groupDay df d).map fun e => scoreOf e c)) ∧
      (∀ d c, c ∈ emotion_cols → (∃ e ∈ df, e.periodDay = some d) →
        (d, c, listMean ((groupDay df d).map fun e => scoreOf e c)) ∈ agg) := by
  constructor
  · unfold cycle_day_chart
    by_cases h : 2 ≤ df.length
    · simp [h]
    · simp [h]
  · intro agg hagg
    unfold cycle_day_chart at hagg
    by_cases h : 2 ≤ df.length
    · rw [if_pos h] at hagg
      simp only [Option.some.injEq] at hagg
      subst hagg
      constructor
      · intro d c v hv
        unfold period_agg at hv
        rw [List.mem_map] at hv
        obtain ⟨⟨d0, c0⟩, hk, heq⟩ := hv
        simp only [Prod.mk.injEq] at heq
        obtain ⟨h1, h2, h3⟩ := heq
        rw [← h1, ← h2, ← h3]
        obtain ⟨hc, hday⟩ := (mem_aggKeys df d0 c0).1 hk
        exact ⟨hc, hday, aggValue_eq df d0 c0 hc⟩
      · intro d c hc hday
        have hkmem : (d, c) ∈ aggKeys df := (mem_aggKeys df d c).2 ⟨hc, hday⟩
        have hmem : (d, c, aggValue df d c)
            ∈ (aggKeys df).map fun k => (k.1, k.2, aggValue df k.1 k.2) :=
          List.mem_map_of_mem _ hkmem
        rw [aggValue_eq df d c hc] at hmem
        exact hmem
    · rw [if_neg h] at hagg
      exact absurd hagg (by simp)

/-- C7 witness: two rows on cycle day 1: the chart is produced and contains
the mean joy score of day 1. -/
theorem period_agg_spec_witness :
    (cycle_day_chart [mkEntry 1 (some 1) "joy" 1, mkEntry 2 (some 1) "sadness" 0]).isSome ∧
    (1, "Joy_Score",
        listMean (((groupDay [mkEntry 1 (some 1) "joy" 1,
            mkEntry 2 (some 1) "sadness" 0] 1)).map fun e => scoreOf e "Joy_Score"))
      ∈ period_agg [mkEntry 1 (some 1) "joy" 1, mkEntry 2 (some 1) "sadness" 0] := by
  have h1 := (period_agg_spec [mkEntry 1 (some 1) "joy" 1, mkEntry 2 (some 1) "sadness" 0]).1
  have h2 := ((period_agg_spec [mkEntry 1 (some 1) "joy" 1, mkEntry 2 (some 1) "sadness" 0]).2
      (period_agg [mkEntry 1 (some 1) "joy" 1, mkEntry 2 (some 1) "sadness" 0]) rfl).2
  exact ⟨h1.2 (by decide),
    h2 1 "Joy_Score" (by decide) ⟨mkEntry 1 (some 1) "joy" 1, List.mem_cons_self _ _, rfl⟩⟩
